import Mathlib

set_option maxRecDepth 10000

/-!
# Shallow embedding of the unisat-ai agent-kit examples

This file embeds the observable initialization and client behaviour of the
four Python modules of the repository:

* `packages/agent-kit/beginner/bitcoin-query/agent.py`
* `packages/agent-kit/beginner/bitcoin-query/client.py`
* `packages/agent-kit/intermediate/brc20-analyst/agent.py`
* `packages/agent-kit/intermediate/brc20-analyst/client.py`

External effects (environment lookup, filesystem existence, construction of
the MCP toolset and knowledge base, HTTP transport) are passed in as explicit
parameters whose `Except`-valued results model the Python calls that may
raise; `try`/`except` blocks of the source are embedded as matches on those
results.  Printed diagnostics are collected as lists of strings.
-/

/-- A Python exception, identified by its message. -/
structure PyErr where
  msg : String
deriving DecidableEq, Repr

/-- A process environment: variable name to optional value, as read by
`os.getenv`. -/
abbrev EnvMap : Type := String → Option String

/-- `os.getenv(name, default)`: the variable value when set, else the default. -/
def getenv (env : EnvMap) (name default : String) : String :=
  (env name).getD default

/-- `google.adk...StreamableHTTPConnectionParams(url=..., timeout=...)`. -/
structure StreamableHTTPConnectionParams where
  url : String
  timeout : Nat
deriving DecidableEq, Repr

/-- The opaque MCP toolset handle produced by `MCPToolset(connection_params=...)`.
We record the connection parameters it was built from. -/
structure MCPToolset where
  connection_params : StreamableHTTPConnectionParams
deriving DecidableEq, Repr

/-- The opaque knowledge-base handle produced by `KnowledgeBase(backend=...)`. -/
structure KnowledgeBase where
  backend : String
deriving DecidableEq, Repr

/-- The opaque short-term memory produced by `ShortTermMemory(backend=...)`. -/
structure ShortTermMemory where
  backend : String
deriving DecidableEq, Repr

/-- The agent descriptor assembled by `veadk.Agent(...)`.  The analyst variant
passes a `knowledgebase=` argument; the beginner variant leaves it at its
default (`none`). -/
structure Agent where
  name : String
  description : String
  instruction : String
  tools : List MCPToolset
  knowledgebase : Option KnowledgeBase := none

/-- The fixed Chinese degraded-mode warning appended to the instruction when
the MCP toolset could not be constructed (identical in both agent modules). -/
def mcpWarning : String :=
  "\n\n**注意：当前未连接到 UniSat MCP Server，工具功能不可用。请设置 UNISAT_MCP_URL 环境变量后重启。**"

namespace BitcoinQueryAgent

/-!
Embedding of `packages/agent-kit/beginner/bitcoin-query/agent.py` (module-level
initialization).
-/

/-- `UNISAT_MCP_URL = os.getenv("UNISAT_MCP_URL", "http://localhost:3000/mcp")`. -/
def UNISAT_MCP_URL (env : EnvMap) : String :=
  getenv env "UNISAT_MCP_URL" "http://localhost:3000/mcp"

/-- The static instruction template: the literal triple-quoted string of
lines 45–92 of `bitcoin-query/agent.py` (before the conditional warning
suffix is appended). -/
def instructionBase : String :=
  "\n你是一个比特币区块链查询助手，专门帮助用户查询比特币网络的相关信息。\n\n" ++
  "## 你可以执行的操作\n\n" ++
  "1. **区块信息查询**\n   - 查询当前最新区块高度\n   - 查询特定区块的详细信息（区块哈希、时间、交易数量等）\n\n" ++
  "2. **网络状态查询**\n   - 查询当前网络推荐手续费\n   - 查询网络拥堵情况\n\n" ++
  "3. **地址查询**\n   - 查询比特币地址余额\n   - 查询地址的 UTXO 列表\n   - 查询地址的交易历史\n\n" ++
  "4. **交易查询**\n   - 查询交易详情\n   - 查询交易状态\n\n" ++
  "5. **BRC20 代币查询**\n   - 查询 BRC20 代币信息\n   - 查询地址的 BRC20 代币余额\n\n" ++
  "6. **Runes 查询**\n   - 查询 Runes 代币信息\n   - 查询地址的 Runes 余额\n\n" ++
  "7. **铭文查询**\n   - 查询 Ordinal 铭文信息\n\n" ++
  "## 回答规范\n\n" ++
  "1. **使用中文回复**，确保表达清晰、专业\n" ++
  "2. **数据准确性优先**：直接使用工具返回的数据，不要编造\n" ++
  "3. **友好引导**：如果用户问题不明确，主动询问细节\n" ++
  "4. **格式化展示**：使用表格或列表展示结构化数据\n" ++
  "5. **提供上下文**：解释数据的含义，帮助用户理解\n\n" ++
  "## 注意事项\n\n" ++
  "- 如果工具调用失败，如实告知用户可能的原因\n" ++
  "- 对于不支持的查询类型，明确告知用户当前的限制\n" ++
  "- 保护用户隐私，不要在日志中暴露完整地址\n\n"

/-- `BITCOIN_QUERY_AGENT_INSTRUCTION`: the template plus, when `has_mcp` is
false, the degraded-mode warning (line 92). -/
def BITCOIN_QUERY_AGENT_INSTRUCTION (has_mcp : Bool) : String :=
  instructionBase ++ (if has_mcp then "" else mcpWarning)

/-- The module-level state produced by importing `bitcoin-query/agent.py`. -/
structure ModuleState where
  tools : List MCPToolset
  has_mcp : Bool
  bitcoin_query_agent : Agent
  short_term_memory : ShortTermMemory
  logs : List String

/-- The `try`/`except` around `MCPToolset(...)` (lines 29–42): on success a
one-element tool list and `has_mcp = True`; on any exception two warning
lines are printed, the tool list is empty and `has_mcp = False`.
`mcpCtor` is the outcome of the external constructor at given connection
parameters. -/
def mcpInitTry (mcpCtor : StreamableHTTPConnectionParams → Except PyErr MCPToolset)
    (url : String) : List MCPToolset × Bool × List String :=
  match mcpCtor ⟨url, 30⟩ with
  | .ok t => ([t], true, [])
  | .error e =>
      ([], false,
       ["Warning: Failed to connect to UniSat MCP Server: " ++ e.msg,
        "Please ensure the MCP server is running at " ++ url])

/-- Module-level initialization of `bitcoin-query/agent.py`: resolve the MCP
URL from the environment, attempt the toolset, compose the instruction and
assemble the agent. -/
def moduleState (env : EnvMap)
    (mcpCtor : StreamableHTTPConnectionParams → Except PyErr MCPToolset) :
    ModuleState :=
  let url := UNISAT_MCP_URL env
  let (tools, has_mcp, mcpLogs) := mcpInitTry mcpCtor url
  let instruction := BITCOIN_QUERY_AGENT_INSTRUCTION has_mcp
  { tools := tools
    has_mcp := has_mcp
    bitcoin_query_agent :=
      { name := "bitcoin_query_agent"
        description := "比特币区块链查询助手，可以查询区块、交易、地址、BRC20、Runes 等信息"
        instruction := instruction
        tools := tools }
    short_term_memory := { backend := "local" }
    logs := mcpLogs }

/-- Importing the module: Python module initialization propagates any
uncaught exception; in this module every raising external call is caught
inside `mcpInitTry`, so the import always succeeds with `moduleState`. -/
def moduleInit (env : EnvMap)
    (mcpCtor : StreamableHTTPConnectionParams → Except PyErr MCPToolset) :
    Except PyErr ModuleState :=
  .ok (moduleState env mcpCtor)

end BitcoinQueryAgent

namespace Brc20AnalystAgent

/-!
Embedding of `packages/agent-kit/intermediate/brc20-analyst/agent.py`
(module-level initialization).
-/

/-- `UNISAT_MCP_URL = os.getenv("UNISAT_MCP_URL", "http://localhost:3000/mcp")`. -/
def UNISAT_MCP_URL (env : EnvMap) : String :=
  getenv env "UNISAT_MCP_URL" "http://localhost:3000/mcp"

/-- `KNOWLEDGE_BASE_PATH = os.getenv("BRC20_KB_PATH", str(Path(__file__).resolve().parent / "knowledgebase_docs"))`.
`scriptDir` stands for the resolved directory of the agent module file. -/
def KNOWLEDGE_BASE_PATH (env : EnvMap) (scriptDir : String) : String :=
  getenv env "BRC20_KB_PATH" (scriptDir ++ "/knowledgebase_docs")

/-- Modelled from the spec: `prompts/analyst_prompt.py`, which defines
`BRC20_ANALYST_INSTRUCTION`, is not present in the source tree; the spec
describes it only as the analyst's static instruction-prompt template, to
which the degraded-mode warning is appended when the tool connection is
unavailable (so the template itself does not contain the warning). -/
def BRC20_ANALYST_INSTRUCTION : String :=
  "你是一个专业的 BRC20 代币分析师，负责分析比特币生态中的 BRC20 代币数据。"

/-- The `try`/`except` around `MCPToolset(...)` (lines 40–53), identical in
structure to the beginner agent. -/
def mcpInitTry (mcpCtor : StreamableHTTPConnectionParams → Except PyErr MCPToolset)
    (url : String) : List MCPToolset × Bool × List String :=
  match mcpCtor ⟨url, 30⟩ with
  | .ok t => ([t], true, [])
  | .error e =>
      ([], false,
       ["Warning: Failed to connect to UniSat MCP Server: " ++ e.msg,
        "Please ensure the MCP server is running at " ++ url])

/-- The knowledge-base initialization (lines 56–68).  `knowledge` starts as
`None`; when the directory exists, the `try` block first assigns
`knowledge = KnowledgeBase(backend="local")` and then calls
`knowledge.add_from_directory(path)` — so if the constructor raises the
handle stays `None`, but if `add_from_directory` raises the already-assigned
handle survives the `except`.  A `False` return from the import only changes
the printed line.  Returns the final `knowledge` value and the printed
lines. -/
def kbInitTry (fsExists : String → Bool)
    (kbCtor : String → Except PyErr KnowledgeBase)
    (add_from_directory : KnowledgeBase → String → Except PyErr Bool)
    (path : String) : Option KnowledgeBase × List String :=
  if fsExists path then
    match kbCtor "local" with
    | .error e =>
        (none, ["Warning: Knowledge base initialization failed: " ++ e.msg])
    | .ok knowledge =>
        match add_from_directory knowledge path with
        | .error e =>
            (some knowledge,
             ["Warning: Knowledge base initialization failed: " ++ e.msg])
        | .ok true =>
            (some knowledge, ["Knowledge base loaded from: " ++ path])
        | .ok false =>
            (some knowledge, ["Warning: Failed to load knowledge base"])
  else
    (none, ["Info: Knowledge base directory not found at " ++ path])

/-- The module-level state produced by importing `brc20-analyst/agent.py`. -/
structure ModuleState where
  tools : List MCPToolset
  has_mcp : Bool
  knowledge : Option KnowledgeBase
  brc20_analyst_instruction : String
  brc20_analyst_agent : Agent
  short_term_memory : ShortTermMemory
  logs : List String

/-- Module-level initialization of `brc20-analyst/agent.py`: resolve the MCP
URL and the knowledge path, attempt the toolset, initialize the knowledge
base, compose the instruction (appending the warning when `has_mcp` is
false, lines 71–74) and assemble the agent with
`knowledgebase=knowledge`. -/
def moduleState (env : EnvMap) (scriptDir : String)
    (mcpCtor : StreamableHTTPConnectionParams → Except PyErr MCPToolset)
    (fsExists : String → Bool)
    (kbCtor : String → Except PyErr KnowledgeBase)
    (add_from_directory : KnowledgeBase → String → Except PyErr Bool) :
    ModuleState :=
  let url := UNISAT_MCP_URL env
  let path := KNOWLEDGE_BASE_PATH env scriptDir
  let (tools, has_mcp, mcpLogs) := mcpInitTry mcpCtor url
  let (knowledge, kbLogs) := kbInitTry fsExists kbCtor add_from_directory path
  let brc20_analyst_instruction :=
    BRC20_ANALYST_INSTRUCTION ++ (if has_mcp then "" else mcpWarning)
  { tools := tools
    has_mcp := has_mcp
    knowledge := knowledge
    brc20_analyst_instruction := brc20_analyst_instruction
    brc20_analyst_agent :=
      { name := "brc20_analyst"
        description := "BRC20 代币分析师，专业分析比特币生态中的 BRC20 代币数据"
        instruction := brc20_analyst_instruction
        tools := tools
        knowledgebase := knowledge }
    short_term_memory := { backend := "local" }
    logs := mcpLogs ++ kbLogs }

/-- Importing the module: Python module initialization propagates any
uncaught exception; in this module every raising external call is caught
inside `mcpInitTry` or `kbInitTry`, so the import always succeeds with
`moduleState`. -/
def moduleInit (env : EnvMap) (scriptDir : String)
    (mcpCtor : StreamableHTTPConnectionParams → Except PyErr MCPToolset)
    (fsExists : String → Bool)
    (kbCtor : String → Except PyErr KnowledgeBase)
    (add_from_directory : KnowledgeBase → String → Except PyErr Bool) :
    Except PyErr ModuleState :=
  .ok (moduleState env scriptDir mcpCtor fsExists kbCtor add_from_directory)

end Brc20AnalystAgent

/-! ## JSON values and the Python operations the clients apply to them -/

/-- A parsed JSON value, as returned by `response.json()`. -/
inductive Json where
  | null : Json
  | bool : Bool → Json
  | num : Int → Json
  | str : String → Json
  | arr : List Json → Json
  | obj : List (String × Json) → Json

/-- Whether `needle` occurs as a contiguous substring of the character list
`hay` (Python `needle in hay` on strings; the empty needle is contained in
everything). -/
def charsContain (needle : List Char) : List Char → Bool
  | [] => needle.isEmpty
  | c :: rest => needle.isPrefixOf (c :: rest) || charsContain needle rest

/-- Python `key in value` for a string `key` and a parsed JSON `value`:
key membership for a dict, element equality for a list (a non-string element
never equals a string), substring for a string, and a `TypeError` for the
remaining non-container shapes. -/
def pyContains (key : String) : Json → Except PyErr Bool
  | .obj kvs => .ok (kvs.any (fun kv => kv.1 == key))
  | .arr xs =>
      .ok (xs.any (fun x => match x with | .str s => s == key | _ => false))
  | .str s => .ok (charsContain key.data s.data)
  | .null => .error ⟨"TypeError: argument of type NoneType is not iterable"⟩
  | .bool _ => .error ⟨"TypeError: argument of type bool is not iterable"⟩
  | .num _ => .error ⟨"TypeError: argument of type int is not iterable"⟩

/-- Python `value[key]` for a string `key`: dict lookup (`KeyError` when the
key is missing), `TypeError` for every other shape. -/
def pyIndex (key : String) : Json → Except PyErr Json
  | .obj kvs =>
      match kvs.lookup key with
      | some v => .ok v
      | none => .error ⟨"KeyError: " ++ key⟩
  | .str _ => .error ⟨"TypeError: string indices must be integers"⟩
  | .arr _ => .error ⟨"TypeError: list indices must be integers"⟩
  | .null => .error ⟨"TypeError: NoneType is not subscriptable"⟩
  | .bool _ => .error ⟨"TypeError: bool is not subscriptable"⟩
  | .num _ => .error ⟨"TypeError: int is not subscriptable"⟩

/-! ## The HTTP surface seen by the test clients -/

/-- The scoped `httpx.AsyncClient(timeout=...)` opened per call. -/
structure AsyncClient where
  timeout : Nat
deriving DecidableEq, Repr

/-- One `POST` issued by a client: the target URL and the JSON payload. -/
structure HttpRequest where
  url : String
  body : Json

/-- The outcome of `client.post(...)`: a response with a status code and the
outcome of parsing its body (`response.json()` may itself raise), or a
network-level exception raised by the post itself. -/
inductive HttpResult where
  | response : Nat → Except PyErr Json → HttpResult
  | netError : PyErr → HttpResult

/-- An HTTP transport: what the external server does with each request made
through a given client. -/
abbrev Transport : Type := AsyncClient → HttpRequest → HttpResult

/-- One line printed inside the per-query loop of `main`: the `answer` field
of the response, the full parsed response, or the caught exception. -/
inductive OutputLine where
  | answer : Json → OutputLine
  | response : Json → OutputLine
  | error : PyErr → OutputLine

namespace BitcoinQueryClient

/-!
Embedding of `packages/agent-kit/beginner/bitcoin-query/client.py`.
-/

/-- `test_agent(query, base_url)` (lines 16–25): open a client with a 60s
timeout, POST `{"query": query}` to `base_url + "/chat"`, raise
`HTTPStatusError` on a non-2xx status, return the parsed JSON body.  Returns
the request it issued together with the outcome. -/
def test_agent (query base_url : String) (t : Transport) :
    HttpRequest × Except PyErr Json :=
  let client : AsyncClient := { timeout := 60 }
  let req : HttpRequest := { url := base_url ++ "/chat"
                             body := .obj [("query", .str query)] }
  (req,
   match t client req with
   | .netError e => .error e
   | .response status body =>
       if 200 ≤ status ∧ status < 300 then body
       else .error ⟨"HTTPStatusError: " ++ toString status⟩)

/-- The body of the `try`/`except` inside the loop of `main` (lines 48–57):
call `test_agent`, print the `answer` field when `"answer" in result`, the
full result otherwise; any exception — from the call, the membership test or
the indexing — is caught and printed as an error line. -/
def loopBody (base_url : String) (t : Transport) (query : String) :
    HttpRequest × OutputLine :=
  let (req, res) := test_agent query base_url t
  (req,
   match res with
   | .error e => .error e
   | .ok result =>
       match pyContains "answer" result with
       | .error e => .error e
       | .ok true =>
           match pyIndex "answer" result with
           | .error e => .error e
           | .ok v => .answer v
       | .ok false => .response result)

/-- The `for query in test_queries` loop of `main` (lines 44–59), over an
arbitrary query list. -/
def runQueries (base_url : String) (t : Transport) :
    List String → List (HttpRequest × OutputLine)
  | [] => []
  | query :: rest => loopBody base_url t query :: runQueries base_url t rest

/-- The fixed query list of `main` (lines 33–38). -/
def test_queries : List String :=
  ["当前比特币区块高度是多少？",
   "查询当前网络手续费",
   "比特币网络的推荐费率是多少？",
   "帮我查一下最新的区块信息"]

/-- `base_url = sys.argv[1] if len(sys.argv) > 1 else "http://localhost:8000"`
(line 31); `argv` models `sys.argv`, whose element 0 is the program name. -/
def base_url (argv : List String) : String :=
  if h : 1 < argv.length then argv.get ⟨1, h⟩ else "http://localhost:8000"

/-- A whole run of the client: the requests it issued and the per-query
lines it printed (constant banner lines are not modelled). -/
structure ClientRun where
  requests : List HttpRequest
  outputs : List OutputLine

/-- `main()` (lines 28–59): resolve the base URL from `argv`, run every test
query through the loop. -/
def main (argv : List String) (t : Transport) : ClientRun :=
  let url := base_url argv
  let runs := runQueries url t test_queries
  { requests := runs.map Prod.fst
    outputs := runs.map Prod.snd }

end BitcoinQueryClient

namespace Brc20AnalystClient

/-!
Embedding of `packages/agent-kit/intermediate/brc20-analyst/client.py`.
Identical in structure to the beginner client except for the 120s timeout
and the query list.
-/

/-- `test_agent(query, base_url)` (lines 12–21), with a 120s timeout. -/
def test_agent (query base_url : String) (t : Transport) :
    HttpRequest × Except PyErr Json :=
  let client : AsyncClient := { timeout := 120 }
  let req : HttpRequest := { url := base_url ++ "/chat"
                             body := .obj [("query", .str query)] }
  (req,
   match t client req with
   | .netError e => .error e
   | .response status body =>
       if 200 ≤ status ∧ status < 300 then body
       else .error ⟨"HTTPStatusError: " ++ toString status⟩)

/-- The body of the `try`/`except` inside the loop of `main` (lines 44–53). -/
def loopBody (base_url : String) (t : Transport) (query : String) :
    HttpRequest × OutputLine :=
  let (req, res) := test_agent query base_url t
  (req,
   match res with
   | .error e => .error e
   | .ok result =>
       match pyContains "answer" result with
       | .error e => .error e
       | .ok true =>
           match pyIndex "answer" result with
           | .error e => .error e
           | .ok v => .answer v
       | .ok false => .response result)

/-- The `for query in test_queries` loop of `main` (lines 40–55). -/
def runQueries (base_url : String) (t : Transport) :
    List String → List (HttpRequest × OutputLine)
  | [] => []
  | query :: rest => loopBody base_url t query :: runQueries base_url t rest

/-- The fixed query list of `main` (lines 29–34). -/
def test_queries : List String :=
  ["分析一下 ORDI 代币的情况",
   "对比 ORDI 和 SATS 的市场表现",
   "查询 ORDI 的前10大持有人",
   "评估一下 RAT 代币的风险"]

/-- `base_url = sys.argv[1] if len(sys.argv) > 1 else "http://localhost:8000"`
(line 27). -/
def base_url (argv : List String) : String :=
  if h : 1 < argv.length then argv.get ⟨1, h⟩ else "http://localhost:8000"

/-- A whole run of the client. -/
structure ClientRun where
  requests : List HttpRequest
  outputs : List OutputLine

/-- `main()` (lines 24–55). -/
def main (argv : List String) (t : Transport) : ClientRun :=
  let url := base_url argv
  let runs := runQueries url t test_queries
  { requests := runs.map Prod.fst
    outputs := runs.map Prod.snd }

end Brc20AnalystClient

/-! ## Concrete fixtures (environments and external-call outcomes used to
instantiate the theorems below on closed inputs) -/

/-- An environment with no variables set. -/
def noEnv : EnvMap := fun _ => none

/-- An `MCPToolset` constructor that raises. -/
def downCtor : StreamableHTTPConnectionParams → Except PyErr MCPToolset :=
  fun _ => .error ⟨"connection refused"⟩

/-- An `MCPToolset` constructor that succeeds. -/
def upCtor : StreamableHTTPConnectionParams → Except PyErr MCPToolset :=
  fun p => .ok ⟨p⟩

/-- A filesystem on which no path exists. -/
def noDir : String → Bool := fun _ => false

/-- A filesystem on which every path exists. -/
def yesDir : String → Bool := fun _ => true

/-- A `KnowledgeBase` constructor that succeeds. -/
def okKb : String → Except PyErr KnowledgeBase := fun b => .ok ⟨b⟩

/-- A `KnowledgeBase` constructor that raises. -/
def failKb : String → Except PyErr KnowledgeBase :=
  fun _ => .error ⟨"kb backend unavailable"⟩

/-- An `add_from_directory` that succeeds with `True`. -/
def okAdd : KnowledgeBase → String → Except PyErr Bool := fun _ _ => .ok true

/-- An `add_from_directory` that raises. -/
def raiseAdd : KnowledgeBase → String → Except PyErr Bool :=
  fun _ _ => .error ⟨"unreadable document"⟩

/-- A transport that always answers status 200 with a given parsed body. -/
def constTransport (body : Json) : Transport :=
  fun _ _ => .response 200 (.ok body)

/-- A transport that always answers a given status with a given parsed
body. -/
def statusTransport (status : Nat) (body : Json) : Transport :=
  fun _ _ => .response status (.ok body)

/-! ## Helper lemmas -/

/-- The degraded-mode warning does not occur in the beginner agent's static
instruction template: the character `启` occurs in the warning but nowhere in
the template. -/
theorem mcpWarning_not_in_bitcoin_base :
    ¬ mcpWarning.data <:+: BitcoinQueryAgent.instructionBase.data := by
  intro h
  have hm : '启' ∈ BitcoinQueryAgent.instructionBase.data :=
    h.subset (by decide)
  revert hm
  decide

/-- The degraded-mode warning does not occur in the analyst's static
instruction template. -/
theorem mcpWarning_not_in_brc20_base :
    ¬ mcpWarning.data <:+: Brc20AnalystAgent.BRC20_ANALYST_INSTRUCTION.data := by
  intro h
  have hm : '启' ∈ Brc20AnalystAgent.BRC20_ANALYST_INSTRUCTION.data :=
    h.subset (by decide)
  revert hm
  decide

/-- The warning is an infix of anything it is appended to. -/
theorem mcpWarning_data_infix (l : List Char) :
    mcpWarning.data <:+: l ++ mcpWarning.data :=
  (List.suffix_append _ _).isInfix

/-- The beginner client's query loop is a pointwise map of its body. -/
theorem bitcoin_runQueries_eq_map (u : String) (t : Transport) (qs : List String) :
    BitcoinQueryClient.runQueries u t qs = qs.map (BitcoinQueryClient.loopBody u t) := by
  induction qs with
  | nil => rfl
  | cons q rest ih => simp [BitcoinQueryClient.runQueries, ih]

/-- The analyst client's query loop is a pointwise map of its body. -/
theorem brc20_runQueries_eq_map (u : String) (t : Transport) (qs : List String) :
    Brc20AnalystClient.runQueries u t qs = qs.map (Brc20AnalystClient.loopBody u t) := by
  induction qs with
  | nil => rfl
  | cons q rest ih => simp [Brc20AnalystClient.runQueries, ih]

/-- `lookup` finds a binding exactly when some key of the association list
matches. -/
theorem lookup_isSome_eq_any (kvs : List (String × Json)) (k : String) :
    (kvs.lookup k).isSome = kvs.any (fun kv => kv.1 == k) := by
  induction kvs with
  | nil => rfl
  | cons hd tl ih =>
      cases hbeq : hd.1 == k with
      | true =>
          have h1 : hd.1 = k := eq_of_beq hbeq
          subst h1
          simp [List.lookup, ih]
      | false =>
          have h1 : (k == hd.1) = false := by
            rw [beq_eq_false_iff_ne] at hbeq ⊢
            exact fun h => hbeq h.symm
          simp [List.lookup, h1, hbeq, ih]

/-! ## C4 -/

/-- C4: in every environment in which `UNISAT_MCP_URL` is unset, both agent
modules resolve the MCP endpoint to exactly `http://localhost:3000/mcp`. -/
theorem c4_default_mcp_url (env : EnvMap) (h : env "UNISAT_MCP_URL" = none) :
    BitcoinQueryAgent.UNISAT_MCP_URL env = "http://localhost:3000/mcp" ∧
    Brc20AnalystAgent.UNISAT_MCP_URL env = "http://localhost:3000/mcp" := by
  refine ⟨?_, ?_⟩ <;>
    simp [BitcoinQueryAgent.UNISAT_MCP_URL, Brc20AnalystAgent.UNISAT_MCP_URL,
      getenv, h]

/-- Witness for C4 at the empty environment. -/
theorem c4_default_mcp_url_witness :
    BitcoinQueryAgent.UNISAT_MCP_URL noEnv = "http://localhost:3000/mcp" ∧
    Brc20AnalystAgent.UNISAT_MCP_URL noEnv = "http://localhost:3000/mcp" :=
  c4_default_mcp_url noEnv rfl

/-! ## C1 -/

/-- C1: for both agents, if construction of the MCP toolset raises, the
agent is built with an empty tool set and its instruction contains the fixed
Chinese degraded-mode warning; if it succeeds, the tool set is exactly the
one constructed toolset and the warning is absent from the instruction. -/
theorem c1_mcp_degraded_mode (env : EnvMap) (scriptDir : String)
    (mcpCtor : StreamableHTTPConnectionParams → Except PyErr MCPToolset)
    (fsExists : String → Bool)
    (kbCtor : String → Except PyErr KnowledgeBase)
    (add : KnowledgeBase → String → Except PyErr Bool) :
    (∀ e, mcpCtor ⟨BitcoinQueryAgent.UNISAT_MCP_URL env, 30⟩ = .error e →
      (BitcoinQueryAgent.moduleState env mcpCtor).bitcoin_query_agent.tools = [] ∧
      mcpWarning.data <:+:
        (BitcoinQueryAgent.moduleState env mcpCtor).bitcoin_query_agent.instruction.data ∧
      (Brc20AnalystAgent.moduleState env scriptDir mcpCtor fsExists kbCtor add).brc20_analyst_agent.tools = [] ∧
      mcpWarning.data <:+:
        (Brc20AnalystAgent.moduleState env scriptDir mcpCtor fsExists kbCtor add).brc20_analyst_agent.instruction.data) ∧
    (∀ tool, mcpCtor ⟨BitcoinQueryAgent.UNISAT_MCP_URL env, 30⟩ = .ok tool →
      (BitcoinQueryAgent.moduleState env mcpCtor).bitcoin_query_agent.tools = [tool] ∧
      ¬ mcpWarning.data <:+:
        (BitcoinQueryAgent.moduleState env mcpCtor).bitcoin_query_agent.instruction.data ∧
      (Brc20AnalystAgent.moduleState env scriptDir mcpCtor fsExists kbCtor add).brc20_analyst_agent.tools = [tool] ∧
      ¬ mcpWarning.data <:+:
        (Brc20AnalystAgent.moduleState env scriptDir mcpCtor fsExists kbCtor add).brc20_analyst_agent.instruction.data) := by
  constructor
  · intro e h
    simp only [BitcoinQueryAgent.UNISAT_MCP_URL] at h
    refine ⟨?_, ?_, ?_, ?_⟩ <;>
      simp [BitcoinQueryAgent.moduleState, Brc20AnalystAgent.moduleState,
        BitcoinQueryAgent.mcpInitTry, Brc20AnalystAgent.mcpInitTry,
        BitcoinQueryAgent.BITCOIN_QUERY_AGENT_INSTRUCTION,
        BitcoinQueryAgent.UNISAT_MCP_URL, Brc20AnalystAgent.UNISAT_MCP_URL,
        h, mcpWarning_data_infix]
  · intro tool h
    simp only [BitcoinQueryAgent.UNISAT_MCP_URL] at h
    refine ⟨?_, ?_, ?_, ?_⟩ <;>
      simp [BitcoinQueryAgent.moduleState, Brc20AnalystAgent.moduleState,
        BitcoinQueryAgent.mcpInitTry, Brc20AnalystAgent.mcpInitTry,
        BitcoinQueryAgent.BITCOIN_QUERY_AGENT_INSTRUCTION,
        BitcoinQueryAgent.UNISAT_MCP_URL, Brc20AnalystAgent.UNISAT_MCP_URL,
        h, mcpWarning_not_in_bitcoin_base, mcpWarning_not_in_brc20_base]

/-- Witness for C1: the failing constructor on the empty environment. -/
theorem c1_mcp_degraded_mode_witness :
    (BitcoinQueryAgent.moduleState noEnv downCtor).bitcoin_query_agent.tools = [] ∧
    mcpWarning.data <:+:
      (BitcoinQueryAgent.moduleState noEnv downCtor).bitcoin_query_agent.instruction.data ∧
    (Brc20AnalystAgent.moduleState noEnv "/srv/brc20" downCtor noDir okKb okAdd).brc20_analyst_agent.tools = [] ∧
    mcpWarning.data <:+:
      (Brc20AnalystAgent.moduleState noEnv "/srv/brc20" downCtor noDir okKb okAdd).brc20_analyst_agent.instruction.data :=
  (c1_mcp_degraded_mode noEnv "/srv/brc20" downCtor noDir okKb okAdd).1
    ⟨"connection refused"⟩ rfl

/-! ## C2 -/

/-- C2 counterexample: two analyst initializations with the tool connection
available, one with the knowledge directory present (knowledge handle
attached) and one with it absent (no knowledge handle), produce the very
same instruction text — so the absence of the knowledge store is not
reflected in the instruction, contrary to the claim. -/
theorem c2_counterexample :
    (Brc20AnalystAgent.moduleState noEnv "/srv/brc20" upCtor noDir okKb okAdd).brc20_analyst_agent.knowledgebase = none ∧
    (Brc20AnalystAgent.moduleState noEnv "/srv/brc20" upCtor yesDir okKb okAdd).brc20_analyst_agent.knowledgebase = some ⟨"local"⟩ ∧
    (Brc20AnalystAgent.moduleState noEnv "/srv/brc20" upCtor noDir okKb okAdd).brc20_analyst_agent.instruction =
      (Brc20AnalystAgent.moduleState noEnv "/srv/brc20" upCtor yesDir okKb okAdd).brc20_analyst_agent.instruction :=
  ⟨rfl, rfl, rfl⟩

/-- C2 amended: only the tool connection's presence is reflected in the
analyst's instruction text — the warning substring appears exactly when MCP
construction failed — while the instruction is entirely independent of the
knowledge-store outcome (directory existence, constructor and import
results). -/
theorem c2_amended_instruction_reflects_mcp_only (env : EnvMap) (scriptDir : String)
    (mcpCtor : StreamableHTTPConnectionParams → Except PyErr MCPToolset)
    (fsExists fsExists2 : String → Bool)
    (kbCtor kbCtor2 : String → Except PyErr KnowledgeBase)
    (add add2 : KnowledgeBase → String → Except PyErr Bool) :
    (Brc20AnalystAgent.moduleState env scriptDir mcpCtor fsExists kbCtor add).brc20_analyst_agent.instruction =
      (Brc20AnalystAgent.moduleState env scriptDir mcpCtor fsExists2 kbCtor2 add2).brc20_analyst_agent.instruction ∧
    (∀ e, mcpCtor ⟨Brc20AnalystAgent.UNISAT_MCP_URL env, 30⟩ = .error e →
      mcpWarning.data <:+:
        (Brc20AnalystAgent.moduleState env scriptDir mcpCtor fsExists kbCtor add).brc20_analyst_agent.instruction.data) ∧
    (∀ tool, mcpCtor ⟨Brc20AnalystAgent.UNISAT_MCP_URL env, 30⟩ = .ok tool →
      ¬ mcpWarning.data <:+:
        (Brc20AnalystAgent.moduleState env scriptDir mcpCtor fsExists kbCtor add).brc20_analyst_agent.instruction.data) := by
  refine ⟨rfl, ?_, ?_⟩
  · intro e h
    simp only [Brc20AnalystAgent.UNISAT_MCP_URL] at h
    simp [Brc20AnalystAgent.moduleState, Brc20AnalystAgent.mcpInitTry,
      Brc20AnalystAgent.UNISAT_MCP_URL, h, mcpWarning_data_infix]
  · intro tool h
    simp only [Brc20AnalystAgent.UNISAT_MCP_URL] at h
    simp [Brc20AnalystAgent.moduleState, Brc20AnalystAgent.mcpInitTry,
      Brc20AnalystAgent.UNISAT_MCP_URL, h, mcpWarning_not_in_brc20_base]

/-- Witness for the amended C2 on closed inputs: knowledge outcomes differ
completely between the two runs, the instruction is the same; with a failing
MCP constructor the warning appears. -/
theorem c2_amended_witness :
    (Brc20AnalystAgent.moduleState noEnv "/srv/brc20" downCtor noDir okKb okAdd).brc20_analyst_agent.instruction =
      (Brc20AnalystAgent.moduleState noEnv "/srv/brc20" downCtor yesDir failKb raiseAdd).brc20_analyst_agent.instruction ∧
    mcpWarning.data <:+:
      (Brc20AnalystAgent.moduleState noEnv "/srv/brc20" downCtor noDir okKb okAdd).brc20_analyst_agent.instruction.data :=
  ⟨(c2_amended_instruction_reflects_mcp_only noEnv "/srv/brc20" downCtor noDir yesDir
      okKb failKb okAdd raiseAdd).1,
   (c2_amended_instruction_reflects_mcp_only noEnv "/srv/brc20" downCtor noDir yesDir
      okKb failKb okAdd raiseAdd).2.1 ⟨"connection refused"⟩ rfl⟩

/-! ## C3 -/

/-- C3 counterexample: when `KnowledgeBase(backend="local")` succeeds and
`add_from_directory` raises, a warning is logged but the agent's knowledge
handle is the already-constructed store — not absent as the claim states. -/
theorem c3_counterexample :
    (Brc20AnalystAgent.moduleState noEnv "/srv/brc20" upCtor yesDir okKb raiseAdd).knowledge = some ⟨"local"⟩ ∧
    (Brc20AnalystAgent.moduleState noEnv "/srv/brc20" upCtor yesDir okKb raiseAdd).brc20_analyst_agent.knowledgebase = some ⟨"local"⟩ ∧
    "Warning: Knowledge base initialization failed: unreadable document" ∈
      (Brc20AnalystAgent.moduleState noEnv "/srv/brc20" upCtor yesDir okKb raiseAdd).logs := by
  refine ⟨rfl, rfl, ?_⟩
  decide

/-- C3 amended: when the knowledge directory exists, a raising
`KnowledgeBase` constructor logs a warning and leaves the knowledge handle
absent; a raising `add_from_directory` logs a warning but leaves the
already-constructed store attached to the agent. -/
theorem c3_amended_kb_exception_handling (env : EnvMap) (scriptDir : String)
    (mcpCtor : StreamableHTTPConnectionParams → Except PyErr MCPToolset)
    (fsExists : String → Bool)
    (kbCtor : String → Except PyErr KnowledgeBase)
    (add : KnowledgeBase → String → Except PyErr Bool)
    (hdir : fsExists (Brc20AnalystAgent.KNOWLEDGE_BASE_PATH env scriptDir) = true) :
    (∀ e, kbCtor "local" = .error e →
      (Brc20AnalystAgent.moduleState env scriptDir mcpCtor fsExists kbCtor add).knowledge = none ∧
      ("Warning: Knowledge base initialization failed: " ++ e.msg) ∈
        (Brc20AnalystAgent.moduleState env scriptDir mcpCtor fsExists kbCtor add).logs) ∧
    (∀ kb e, kbCtor "local" = .ok kb →
      add kb (Brc20AnalystAgent.KNOWLEDGE_BASE_PATH env scriptDir) = .error e →
      (Brc20AnalystAgent.moduleState env scriptDir mcpCtor fsExists kbCtor add).knowledge = some kb ∧
      ("Warning: Knowledge base initialization failed: " ++ e.msg) ∈
        (Brc20AnalystAgent.moduleState env scriptDir mcpCtor fsExists kbCtor add).logs) := by
  simp only [Brc20AnalystAgent.KNOWLEDGE_BASE_PATH] at hdir
  constructor
  · intro e h
    constructor <;>
      simp [Brc20AnalystAgent.moduleState, Brc20AnalystAgent.kbInitTry,
        Brc20AnalystAgent.KNOWLEDGE_BASE_PATH, hdir, h]
  · intro kb e hkb hadd
    simp only [Brc20AnalystAgent.KNOWLEDGE_BASE_PATH] at hadd
    constructor <;>
      simp [Brc20AnalystAgent.moduleState, Brc20AnalystAgent.kbInitTry,
        Brc20AnalystAgent.KNOWLEDGE_BASE_PATH, hdir, hkb, hadd]

/-- Witness for the amended C3: the raising constructor branch at a concrete
input. -/
theorem c3_amended_witness :
    (Brc20AnalystAgent.moduleState noEnv "/srv/brc20" upCtor yesDir failKb okAdd).knowledge = none ∧
    ("Warning: Knowledge base initialization failed: " ++ "kb backend unavailable") ∈
      (Brc20AnalystAgent.moduleState noEnv "/srv/brc20" upCtor yesDir failKb okAdd).logs :=
  (c3_amended_kb_exception_handling noEnv "/srv/brc20" upCtor yesDir failKb okAdd rfl).1
    ⟨"kb backend unavailable"⟩ rfl

/-! ## C5 -/

/-- C5: when the configured knowledge directory does not exist, module
initialization completes without propagating an exception, logs an
informational message naming the path, and the agent carries no knowledge
handle. -/
theorem c5_missing_kb_directory (env : EnvMap) (scriptDir : String)
    (mcpCtor : StreamableHTTPConnectionParams → Except PyErr MCPToolset)
    (fsExists : String → Bool)
    (kbCtor : String → Except PyErr KnowledgeBase)
    (add : KnowledgeBase → String → Except PyErr Bool)
    (hdir : fsExists (Brc20AnalystAgent.KNOWLEDGE_BASE_PATH env scriptDir) = false) :
    Brc20AnalystAgent.moduleInit env scriptDir mcpCtor fsExists kbCtor add =
      .ok (Brc20AnalystAgent.moduleState env scriptDir mcpCtor fsExists kbCtor add) ∧
    (Brc20AnalystAgent.moduleState env scriptDir mcpCtor fsExists kbCtor add).knowledge = none ∧
    (Brc20AnalystAgent.moduleState env scriptDir mcpCtor fsExists kbCtor add).brc20_analyst_agent.knowledgebase = none ∧
    ("Info: Knowledge base directory not found at " ++
        Brc20AnalystAgent.KNOWLEDGE_BASE_PATH env scriptDir) ∈
      (Brc20AnalystAgent.moduleState env scriptDir mcpCtor fsExists kbCtor add).logs := by
  simp only [Brc20AnalystAgent.KNOWLEDGE_BASE_PATH] at hdir
  refine ⟨rfl, ?_, ?_, ?_⟩ <;>
    simp [Brc20AnalystAgent.moduleState, Brc20AnalystAgent.kbInitTry,
      Brc20AnalystAgent.KNOWLEDGE_BASE_PATH, hdir]

/-- Witness for C5 at concrete inputs where no directory exists. -/
theorem c5_missing_kb_directory_witness :
    Brc20AnalystAgent.moduleInit noEnv "/srv/brc20" upCtor noDir okKb okAdd =
      .ok (Brc20AnalystAgent.moduleState noEnv "/srv/brc20" upCtor noDir okKb okAdd) ∧
    (Brc20AnalystAgent.moduleState noEnv "/srv/brc20" upCtor noDir okKb okAdd).knowledge = none ∧
    (Brc20AnalystAgent.moduleState noEnv "/srv/brc20" upCtor noDir okKb okAdd).brc20_analyst_agent.knowledgebase = none ∧
    ("Info: Knowledge base directory not found at " ++
        Brc20AnalystAgent.KNOWLEDGE_BASE_PATH noEnv "/srv/brc20") ∈
      (Brc20AnalystAgent.moduleState noEnv "/srv/brc20" upCtor noDir okKb okAdd).logs :=
  c5_missing_kb_directory noEnv "/srv/brc20" upCtor noDir okKb okAdd rfl

/-! ## C6 -/

/-- C6: for every query list, base URL and assignment of per-query outcomes
(success, non-2xx, network error — all encoded in the transport), the driver
loop of each client produces exactly one output entry per query, and the
entry at position `i` is the handling of query `i` alone — so a failure of
query `i` never prevents the attempt of any later query. -/
theorem c6_per_query_isolation (u : String) (t : Transport) (qs : List String) :
    (BitcoinQueryClient.runQueries u t qs).length = qs.length ∧
    (∀ i : Nat, (BitcoinQueryClient.runQueries u t qs)[i]? =
      (qs[i]?).map (BitcoinQueryClient.loopBody u t)) ∧
    (Brc20AnalystClient.runQueries u t qs).length = qs.length ∧
    (∀ i : Nat, (Brc20AnalystClient.runQueries u t qs)[i]? =
      (qs[i]?).map (Brc20AnalystClient.loopBody u t)) := by
  refine ⟨?_, ?_, ?_, ?_⟩ <;>
    simp [bitcoin_runQueries_eq_map, brc20_runQueries_eq_map]

/-! ## C7 -/

/-- C7: each client's send function POSTs the JSON body `{"query": query}`
to `{base_url}/chat` through its scoped client (60s timeout for the
beginner client, 120s for the analyst), raises when the response status is
not 2xx, propagates a network error, and otherwise returns the parsed JSON
body. -/
theorem c7_send_contract (q u : String) (t : Transport) :
    (BitcoinQueryClient.test_agent q u t).1 =
      { url := u ++ "/chat", body := .obj [("query", .str q)] } ∧
    (∀ s b, t { timeout := 60 } { url := u ++ "/chat", body := .obj [("query", .str q)] } =
        .response s b →
      ((200 ≤ s ∧ s < 300) → (BitcoinQueryClient.test_agent q u t).2 = b) ∧
      (¬ (200 ≤ s ∧ s < 300) → (BitcoinQueryClient.test_agent q u t).2 =
        .error ⟨"HTTPStatusError: " ++ toString s⟩)) ∧
    (∀ e, t { timeout := 60 } { url := u ++ "/chat", body := .obj [("query", .str q)] } =
        .netError e → (BitcoinQueryClient.test_agent q u t).2 = .error e) ∧
    (Brc20AnalystClient.test_agent q u t).1 =
      { url := u ++ "/chat", body := .obj [("query", .str q)] } ∧
    (∀ s b, t { timeout := 120 } { url := u ++ "/chat", body := .obj [("query", .str q)] } =
        .response s b →
      ((200 ≤ s ∧ s < 300) → (Brc20AnalystClient.test_agent q u t).2 = b) ∧
      (¬ (200 ≤ s ∧ s < 300) → (Brc20AnalystClient.test_agent q u t).2 =
        .error ⟨"HTTPStatusError: " ++ toString s⟩)) ∧
    (∀ e, t { timeout := 120 } { url := u ++ "/chat", body := .obj [("query", .str q)] } =
        .netError e → (Brc20AnalystClient.test_agent q u t).2 = .error e) := by
  refine ⟨rfl, ?_, ?_, rfl, ?_, ?_⟩
  · intro s b h
    constructor <;> intro hs <;>
      simp [BitcoinQueryClient.test_agent, h, hs]
  · intro e h
    simp [BitcoinQueryClient.test_agent, h]
  · intro s b h
    constructor <;> intro hs <;>
      simp [Brc20AnalystClient.test_agent, h, hs]
  · intro e h
    simp [Brc20AnalystClient.test_agent, h]

/-- Witness for C7: a concrete 200 response whose body is returned. -/
theorem c7_send_contract_witness :
    (BitcoinQueryClient.test_agent "q" "http://localhost:8000"
        (constTransport (.str "ok"))).2 = .ok (.str "ok") :=
  ((c7_send_contract "q" "http://localhost:8000" (constTransport (.str "ok"))).2.1
    200 (.ok (.str "ok")) rfl).1 ⟨by decide, by decide⟩

/-! ## C8 -/

/-- C8 counterexample: a 200 response whose parsed JSON is the number `42`
does not make the client print the full parsed value — the membership test
`"answer" in result` raises a `TypeError`, which the per-query handler
catches and prints as an error line instead. -/
theorem c8_counterexample :
    (BitcoinQueryClient.loopBody "http://localhost:8000"
        (constTransport (.num 42)) "q").2 =
      .error ⟨"TypeError: argument of type int is not iterable"⟩ ∧
    (BitcoinQueryClient.loopBody "http://localhost:8000"
        (constTransport (.num 42)) "q").2 ≠ .response (.num 42) :=
  ⟨rfl, fun h => nomatch h⟩

/-- C8 amended: for every successful `/chat` response whose parsed JSON is a
dict, each client prints the value of the `"answer"` field when the key is
present and the full dict otherwise; for non-container JSON shapes (null,
booleans, numbers) the membership test raises, and the exception is caught
by the per-query handler and printed as an error line — in no case does an
exception escape the per-query handling. -/
theorem c8_amended_response_printing (u q : String) (s : Nat)
    (h2 : 200 ≤ s ∧ s < 300) :
    (∀ kvs v, kvs.lookup "answer" = some v →
      (BitcoinQueryClient.loopBody u (statusTransport s (.obj kvs)) q).2 = .answer v ∧
      (Brc20AnalystClient.loopBody u (statusTransport s (.obj kvs)) q).2 = .answer v) ∧
    (∀ kvs, kvs.lookup "answer" = none →
      (BitcoinQueryClient.loopBody u (statusTransport s (.obj kvs)) q).2 = .response (.obj kvs) ∧
      (Brc20AnalystClient.loopBody u (statusTransport s (.obj kvs)) q).2 = .response (.obj kvs)) ∧
    ((BitcoinQueryClient.loopBody u (statusTransport s .null) q).2 =
      .error ⟨"TypeError: argument of type NoneType is not iterable"⟩) ∧
    (∀ b, (BitcoinQueryClient.loopBody u (statusTransport s (.bool b)) q).2 =
      .error ⟨"TypeError: argument of type bool is not iterable"⟩) ∧
    (∀ n, (BitcoinQueryClient.loopBody u (statusTransport s (.num n)) q).2 =
      .error ⟨"TypeError: argument of type int is not iterable"⟩) := by
  have hany : ∀ (kvs : List (String × Json)) (v : Json),
      kvs.lookup "answer" = some v →
      (kvs.any fun kv => kv.1 == "answer") = true := by
    intro kvs v hv
    rw [← lookup_isSome_eq_any, hv]
    rfl
  have hnone : ∀ kvs : List (String × Json),
      kvs.lookup "answer" = none →
      (kvs.any fun kv => kv.1 == "answer") = false := by
    intro kvs hv
    rw [← lookup_isSome_eq_any, hv]
    rfl
  refine ⟨?_, ?_, ?_, ?_, ?_⟩
  · intro kvs v hv
    constructor <;>
      simp [BitcoinQueryClient.loopBody, Brc20AnalystClient.loopBody,
        BitcoinQueryClient.test_agent, Brc20AnalystClient.test_agent,
        statusTransport, h2, pyContains, pyIndex, hany kvs v hv, hv]
  · intro kvs hv
    constructor <;>
      simp [BitcoinQueryClient.loopBody, Brc20AnalystClient.loopBody,
        BitcoinQueryClient.test_agent, Brc20AnalystClient.test_agent,
        statusTransport, h2, pyContains, pyIndex, hnone kvs hv]
  · simp [BitcoinQueryClient.loopBody, BitcoinQueryClient.test_agent,
      statusTransport, h2, pyContains]
  · intro b
    simp [BitcoinQueryClient.loopBody, BitcoinQueryClient.test_agent,
      statusTransport, h2, pyContains]
  · intro n
    simp [BitcoinQueryClient.loopBody, BitcoinQueryClient.test_agent,
      statusTransport, h2, pyContains]

/-- Witness for the amended C8: the spec's own example — a 200 response
`{"answer": "123456"}` prints the value `123456`. -/
theorem c8_amended_witness :
    (BitcoinQueryClient.loopBody "http://localhost:8000"
        (statusTransport 200 (.obj [("answer", .str "123456")])) "当前比特币区块高度是多少？").2 =
      .answer (.str "123456") ∧
    (Brc20AnalystClient.loopBody "http://localhost:8000"
        (statusTransport 200 (.obj [("answer", .str "123456")])) "当前比特币区块高度是多少？").2 =
      .answer (.str "123456") :=
  (c8_amended_response_printing "http://localhost:8000" "当前比特币区块高度是多少？" 200
      ⟨by decide, by decide⟩).1 [("answer", .str "123456")] (.str "123456") rfl

/-! ## C9 -/

/-- C9: two client runs with different argument vectors each direct every
request to their own resolved base URL — a run's target URL is a function of
its own arguments only, with no leakage between runs; stated for both
clients. -/
theorem c9_no_url_leakage (argv₁ argv₂ : List String) (t₁ t₂ : Transport) :
    (∀ r ∈ (BitcoinQueryClient.main argv₁ t₁).requests,
      r.url = BitcoinQueryClient.base_url argv₁ ++ "/chat") ∧
    (∀ r ∈ (BitcoinQueryClient.main argv₂ t₂).requests,
      r.url = BitcoinQueryClient.base_url argv₂ ++ "/chat") ∧
    (∀ r ∈ (Brc20AnalystClient.main argv₁ t₁).requests,
      r.url = Brc20AnalystClient.base_url argv₁ ++ "/chat") ∧
    (∀ r ∈ (Brc20AnalystClient.main argv₂ t₂).requests,
      r.url = Brc20AnalystClient.base_url argv₂ ++ "/chat") := by
  refine ⟨?_, ?_, ?_, ?_⟩ <;>
    · intro r hr
      simp [BitcoinQueryClient.main, Brc20AnalystClient.main,
        bitcoin_runQueries_eq_map, brc20_runQueries_eq_map] at hr
      obtain ⟨q, _, rfl⟩ := hr
      rfl

/-- Witness for C9: two concrete runs with different base URLs, checked on
the first request of the first run. -/
theorem c9_no_url_leakage_witness :
    ({ url := "http://hosta:8000" ++ "/chat",
       body := .obj [("query", .str "当前比特币区块高度是多少？")] } : HttpRequest).url =
      BitcoinQueryClient.base_url ["client.py", "http://hosta:8000"] ++ "/chat" :=
  (c9_no_url_leakage ["client.py", "http://hosta:8000"] ["client.py", "http://hostb:9000"]
      (constTransport .null) (constTransport .null)).1
    { url := "http://hosta:8000" ++ "/chat",
      body := .obj [("query", .str "当前比特币区块高度是多少？")] }
    (List.Mem.head _)

/-! ## C10 -/

/-- C10: the base URL of a client run is the first positional argument when
one is given (arguments past the first are ignored) and
`http://localhost:8000` otherwise, and every request of the run targets that
base URL. -/
theorem c10_base_url_resolution :
    (∀ prog a rest, BitcoinQueryClient.base_url (prog :: a :: rest) = a ∧
      Brc20AnalystClient.base_url (prog :: a :: rest) = a) ∧
    (∀ prog, BitcoinQueryClient.base_url [prog] = "http://localhost:8000" ∧
      Brc20AnalystClient.base_url [prog] = "http://localhost:8000") ∧
    (∀ prog a rest t r, r ∈ (BitcoinQueryClient.main (prog :: a :: rest) t).requests →
      r.url = a ++ "/chat") ∧
    (∀ prog a rest t r, r ∈ (Brc20AnalystClient.main (prog :: a :: rest) t).requests →
      r.url = a ++ "/chat") := by
  have hb : ∀ (prog a : String) (rest : List String),
      BitcoinQueryClient.base_url (prog :: a :: rest) = a := by
    intro prog a rest
    simp [BitcoinQueryClient.base_url]
  have ha : ∀ (prog a : String) (rest : List String),
      Brc20AnalystClient.base_url (prog :: a :: rest) = a := by
    intro prog a rest
    simp [Brc20AnalystClient.base_url]
  refine ⟨fun prog a rest => ⟨hb prog a rest, ha prog a rest⟩,
    fun prog => ⟨rfl, rfl⟩, ?_, ?_⟩
  · intro prog a rest t r hr
    simp [BitcoinQueryClient.main, bitcoin_runQueries_eq_map] at hr
    obtain ⟨q, _, rfl⟩ := hr
    simp [BitcoinQueryClient.loopBody, BitcoinQueryClient.test_agent, hb]
  · intro prog a rest t r hr
    simp [Brc20AnalystClient.main, brc20_runQueries_eq_map] at hr
    obtain ⟨q, _, rfl⟩ := hr
    simp [Brc20AnalystClient.loopBody, Brc20AnalystClient.test_agent, ha]

/-- Witness for C10: a run invoked with two positional arguments targets the
first and ignores the second, also on a concrete issued request. -/
theorem c10_base_url_resolution_witness :
    (BitcoinQueryClient.base_url ["client.py", "http://hosta:8000", "ignored"] =
      "http://hosta:8000" ∧
     Brc20AnalystClient.base_url ["client.py", "http://hosta:8000", "ignored"] =
      "http://hosta:8000") ∧
    ({ url := "http://hosta:8000" ++ "/chat",
       body := .obj [("query", .str "当前比特币区块高度是多少？")] } : HttpRequest).url =
      "http://hosta:8000" ++ "/chat" :=
  ⟨c10_base_url_resolution.1 "client.py" "http://hosta:8000" ["ignored"],
   c10_base_url_resolution.2.2.1 "client.py" "http://hosta:8000" ["ignored"]
     (constTransport .null)
     { url := "http://hosta:8000" ++ "/chat",
       body := .obj [("query", .str "当前比特币区块高度是多少？")] }
     (List.Mem.head _)⟩

/-- Witness for C6 at a concrete two-query run: both entries are present and
the second entry is the handling of the second query alone. -/
theorem c6_per_query_isolation_witness :
    (BitcoinQueryClient.runQueries "http://localhost:8000" (constTransport (.str "ok"))
      ["q1", "q2"]).length = 2 ∧
    (BitcoinQueryClient.runQueries "http://localhost:8000" (constTransport (.str "ok"))
      ["q1", "q2"])[1]? =
      (some "q2").map
        (BitcoinQueryClient.loopBody "http://localhost:8000" (constTransport (.str "ok"))) :=
  ⟨(c6_per_query_isolation "http://localhost:8000" (constTransport (.str "ok"))
      ["q1", "q2"]).1,
   (c6_per_query_isolation "http://localhost:8000" (constTransport (.str "ok"))
      ["q1", "q2"]).2.1 1⟩
